import Mathlib

/-!
# ClawdScanner (Vigil) — verification of the scan/aggregation pipeline
and the cryptographic attestation subsystem

Shallow embedding of the TypeScript sources:
* `src/scanners/scanner.ts` (orchestrator `runFullScan`, `calculateSummary`)
* `src/scanners/network.ts`, `process.ts`, `filesystem.ts`,
  `dependencies.ts`, `configuration.ts` (result shapes)
* `src/crypto/keys.ts` (key manager, sign/verify)

Conventions: JavaScript numbers that are used as non-negative counters are
`Nat`; strings are `String`; a JS value that may be `undefined` is
`Option _`; a promise that may reject is `Except String _`; byte buffers
are `List Nat` with values `< 256`.
-/

namespace Vigil

/-- Severity of one finding, as the string union
`'critical' | 'high' | 'medium' | 'low'` used by all scanners. -/
inductive Severity where
  | critical
  | high
  | medium
  | low
deriving DecidableEq, Repr

/-- `riskLevel` union `'CRITICAL' | 'HIGH' | 'MEDIUM' | 'LOW' | 'CLEAN'`
from `ScanReport.summary` (scanner.ts). -/
inductive RiskLevel where
  | CRITICAL
  | HIGH
  | MEDIUM
  | LOW
  | CLEAN
deriving DecidableEq, Repr

/-- `PortInfo` (network.ts). -/
structure PortInfo where
  port : Nat
  protocol : String
  service : String
  state : String
  severity : Severity
deriving DecidableEq, Repr

/-- `firewallStatus` record inside `NetworkScanResult` (network.ts):
`{ enabled: boolean; type: string }`. -/
structure FirewallStatus where
  enabled : Bool
  type : String
deriving DecidableEq, Repr

/-- One entry of `listeningServices` (network.ts):
`{ pid: string; command: string; port: string }`. -/
structure ListeningService where
  pid : String
  command : String
  port : String
deriving DecidableEq, Repr

/-- `NetworkScanResult` (network.ts). -/
structure NetworkScanResult where
  openPorts : List PortInfo
  firewallStatus : FirewallStatus
  listeningServices : List ListeningService
deriving DecidableEq, Repr

/-- `ProcessInfo` (process.ts). -/
structure ProcessInfo where
  pid : String
  command : String
  user : String
  issue : String
  severity : Severity
deriving DecidableEq, Repr

/-- One entry of `secretsInEnv` (process.ts):
`{ pid: string; command: string; secret: string; type: string }`. -/
structure EnvSecret where
  pid : String
  command : String
  secret : String
  type : String
deriving DecidableEq, Repr

/-- `ProcessScanResult` (process.ts). -/
structure ProcessScanResult where
  suspiciousProcesses : List ProcessInfo
  privilegedProcesses : List ProcessInfo
  secretsInEnv : List EnvSecret
deriving DecidableEq, Repr

/-- `FileIssue` (filesystem.ts); `permissions?` is optional. -/
structure FileIssue where
  path : String
  issue : String
  severity : Severity
  permissions : Option String
deriving DecidableEq, Repr

/-- `FilesystemScanResult` (filesystem.ts). -/
structure FilesystemScanResult where
  sensitiveFileIssues : List FileIssue
  worldWritableFiles : List FileIssue
  suidFiles : List FileIssue
  exposedSecrets : List FileIssue
deriving DecidableEq, Repr

/-- Severity union of the dependency scanner (dependencies.ts):
`'critical' | 'high' | 'moderate' | 'low' | 'info'`. -/
inductive DepSeverity where
  | critical
  | high
  | moderate
  | low
  | info
deriving DecidableEq, Repr

/-- `Vulnerability` (dependencies.ts). -/
structure Vulnerability where
  name : String
  severity : DepSeverity
  version : String
  description : String
deriving DecidableEq, Repr

/-- The `summary` record of `DependencyScanResult` (dependencies.ts). -/
structure DepSummary where
  critical : Nat
  high : Nat
  moderate : Nat
  low : Nat
  info : Nat
deriving DecidableEq, Repr

/-- `DependencyScanResult` (dependencies.ts). -/
structure DependencyScanResult where
  hasPackageJson : Bool
  vulnerabilities : List Vulnerability
  totalVulnerabilities : Nat
  summary : DepSummary
deriving DecidableEq, Repr

/-- `ConfigIssue` (configuration.ts); `line?` is optional. -/
structure ConfigIssue where
  file : String
  issue : String
  severity : Severity
  line : Option String
deriving DecidableEq, Repr

/-- `ConfigScanResult` (configuration.ts). -/
structure ConfigScanResult where
  sshConfigIssues : List ConfigIssue
  secretsInConfig : List ConfigIssue
deriving DecidableEq, Repr

/-- One issue of a container, as consumed by `calculateSummary`
(scanner.ts iterates `containers.containers[].issues[].severity`;
`containers.ts` itself ships with the repository but is not among the
provided sources, so only the shape used by the aggregator is modelled). -/
structure ContainerIssue where
  issue : String
  severity : Severity
deriving DecidableEq, Repr

/-- One container entry of `ContainerScanResult`, shape taken from its use
in `calculateSummary` (scanner.ts). -/
structure ContainerInfo where
  issues : List ContainerIssue
deriving DecidableEq, Repr

/-- `ContainerScanResult`, shape taken from its use in `calculateSummary`
(scanner.ts): a record exposing a `containers` list. -/
structure ContainerScanResult where
  containers : List ContainerInfo
deriving DecidableEq, Repr

/-- The `summary` record of `ScanReport` (scanner.ts). -/
@[ext]
structure Summary where
  totalIssues : Nat
  criticalIssues : Nat
  highIssues : Nat
  mediumIssues : Nat
  lowIssues : Nat
  riskLevel : RiskLevel
deriving DecidableEq, Repr

/-- The four mutable counters
`criticalIssues, highIssues, mediumIssues, lowIssues` of
`calculateSummary` (scanner.ts), gathered in one record so the
imperative `++` updates become a fold. -/
structure Counts where
  critical : Nat
  high : Nat
  medium : Nat
  low : Nat
deriving DecidableEq, Repr

/-- The common `if/else if` chain of `calculateSummary`: increment the
counter matching a severity. -/
def bump (c : Counts) : Severity → Counts
  | .critical => { c with critical := c.critical + 1 }
  | .high => { c with high := c.high + 1 }
  | .medium => { c with medium := c.medium + 1 }
  | .low => { c with low := c.low + 1 }

/-- `calculateSummary` (scanner.ts lines 69–181), translated statement by
statement; each `forEach` over a list with mutable counters becomes a
`foldl` over `Counts`. -/
def calculateSummary (network : NetworkScanResult) (processes : ProcessScanResult)
    (filesystem : FilesystemScanResult) (dependencies : DependencyScanResult)
    (configuration : ConfigScanResult) (containers : ContainerScanResult) : Summary :=
  let c : Counts := ⟨0, 0, 0, 0⟩
  -- Count network issues
  let c := network.openPorts.foldl (fun c port => bump c port.severity) c
  let c := if !network.firewallStatus.enabled then { c with high := c.high + 1 } else c
  -- Count process issues
  let c := processes.suspiciousProcesses.foldl (fun c proc => bump c proc.severity) c
  let c := processes.secretsInEnv.foldl (fun c _ => { c with high := c.high + 1 }) c
  -- Count filesystem issues
  let c := filesystem.sensitiveFileIssues.foldl (fun c file => bump c file.severity) c
  let c := filesystem.worldWritableFiles.foldl
    (fun c file => if file.severity = .medium then { c with medium := c.medium + 1 } else c) c
  let c := filesystem.suidFiles.foldl (fun c _ => { c with low := c.low + 1 }) c
  let c := filesystem.exposedSecrets.foldl
    (fun c file =>
      if file.severity = .high then { c with high := c.high + 1 }
      else if file.severity = .medium then { c with medium := c.medium + 1 } else c) c
  -- Count dependency issues
  let c := { c with
    critical := c.critical + dependencies.summary.critical,
    high := c.high + dependencies.summary.high,
    medium := c.medium + dependencies.summary.moderate,
    low := c.low + dependencies.summary.low }
  -- Count configuration issues
  let c := configuration.sshConfigIssues.foldl (fun c issue => bump c issue.severity) c
  let c := configuration.secretsInConfig.foldl (fun c issue => bump c issue.severity) c
  -- Count container issues
  let c := containers.containers.foldl
    (fun c container => container.issues.foldl (fun c issue => bump c issue.severity) c) c
  let totalIssues := c.critical + c.high + c.medium + c.low
  let riskLevel : RiskLevel :=
    if c.critical > 0 then .CRITICAL
    else if c.high > 0 then .HIGH
    else if c.medium > 0 then .MEDIUM
    else if c.low > 0 then .LOW
    else .CLEAN
  { totalIssues,
    criticalIssues := c.critical,
    highIssues := c.high,
    mediumIssues := c.medium,
    lowIssues := c.low,
    riskLevel }

/-- Number of elements of severity `s` in a severity list. -/
def countSev (s : Severity) (l : List Severity) : Nat :=
  l.countP (fun x => x = s)

/-- All severities appearing in container issues, in order (the nested
`forEach` of `calculateSummary` visits exactly these). -/
def containerSevs (containers : ContainerScanResult) : List Severity :=
  (containers.containers.map (fun container => container.issues.map (·.severity))).flatten

/-- The severity list of the `openPorts` loop of `calculateSummary`. -/
def netSevs (network : NetworkScanResult) : List Severity :=
  network.openPorts.map (·.severity)

/-- The severity list of the `suspiciousProcesses` loop. -/
def suspSevs (processes : ProcessScanResult) : List Severity :=
  processes.suspiciousProcesses.map (·.severity)

/-- The severity list of the `sensitiveFileIssues` loop. -/
def sensSevs (filesystem : FilesystemScanResult) : List Severity :=
  filesystem.sensitiveFileIssues.map (·.severity)

/-- The severity list of the `worldWritableFiles` loop. -/
def wwSevs (filesystem : FilesystemScanResult) : List Severity :=
  filesystem.worldWritableFiles.map (·.severity)

/-- The severity list of the `exposedSecrets` loop. -/
def exSevs (filesystem : FilesystemScanResult) : List Severity :=
  filesystem.exposedSecrets.map (·.severity)

/-- The severity list of the `sshConfigIssues` loop. -/
def sshSevs (configuration : ConfigScanResult) : List Severity :=
  configuration.sshConfigIssues.map (·.severity)

/-- The severity list of the `secretsInConfig` loop. -/
def cfgSecSevs (configuration : ConfigScanResult) : List Severity :=
  configuration.secretsInConfig.map (·.severity)

/-- Closed-form value of the `criticalIssues` counter of `calculateSummary`. -/
def criticalClosed (network : NetworkScanResult) (processes : ProcessScanResult)
    (filesystem : FilesystemScanResult) (dependencies : DependencyScanResult)
    (configuration : ConfigScanResult) (containers : ContainerScanResult) : Nat :=
  countSev .critical (netSevs network) + countSev .critical (suspSevs processes)
    + countSev .critical (sensSevs filesystem) + dependencies.summary.critical
    + countSev .critical (sshSevs configuration) + countSev .critical (cfgSecSevs configuration)
    + countSev .critical (containerSevs containers)

/-- Closed-form value of the `highIssues` counter of `calculateSummary`. -/
def highClosed (network : NetworkScanResult) (processes : ProcessScanResult)
    (filesystem : FilesystemScanResult) (dependencies : DependencyScanResult)
    (configuration : ConfigScanResult) (containers : ContainerScanResult) : Nat :=
  countSev .high (netSevs network) + (if network.firewallStatus.enabled then 0 else 1)
    + countSev .high (suspSevs processes) + processes.secretsInEnv.length
    + countSev .high (sensSevs filesystem) + countSev .high (exSevs filesystem)
    + dependencies.summary.high
    + countSev .high (sshSevs configuration) + countSev .high (cfgSecSevs configuration)
    + countSev .high (containerSevs containers)

/-- Closed-form value of the `mediumIssues` counter of `calculateSummary`. -/
def mediumClosed (network : NetworkScanResult) (processes : ProcessScanResult)
    (filesystem : FilesystemScanResult) (dependencies : DependencyScanResult)
    (configuration : ConfigScanResult) (containers : ContainerScanResult) : Nat :=
  countSev .medium (netSevs network) + countSev .medium (suspSevs processes)
    + countSev .medium (sensSevs filesystem) + countSev .medium (wwSevs filesystem)
    + countSev .medium (exSevs filesystem) + dependencies.summary.moderate
    + countSev .medium (sshSevs configuration) + countSev .medium (cfgSecSevs configuration)
    + countSev .medium (containerSevs containers)

/-- Closed-form value of the `lowIssues` counter of `calculateSummary`. -/
def lowClosed (network : NetworkScanResult) (processes : ProcessScanResult)
    (filesystem : FilesystemScanResult) (dependencies : DependencyScanResult)
    (configuration : ConfigScanResult) (containers : ContainerScanResult) : Nat :=
  countSev .low (netSevs network) + countSev .low (suspSevs processes)
    + countSev .low (sensSevs filesystem) + filesystem.suidFiles.length
    + dependencies.summary.low
    + countSev .low (sshSevs configuration) + countSev .low (cfgSecSevs configuration)
    + countSev .low (containerSevs containers)

/-- The strict priority ladder of spec §4.3, as a predicate on a summary. -/
def ladderHolds (S : Summary) : Prop :=
  (S.criticalIssues > 0 → S.riskLevel = .CRITICAL) ∧
  (S.criticalIssues = 0 → S.highIssues > 0 → S.riskLevel = .HIGH) ∧
  (S.criticalIssues = 0 → S.highIssues = 0 → S.mediumIssues > 0 →
    S.riskLevel = .MEDIUM) ∧
  (S.criticalIssues = 0 → S.highIssues = 0 → S.mediumIssues = 0 → S.lowIssues > 0 →
    S.riskLevel = .LOW) ∧
  (S.criticalIssues = 0 → S.highIssues = 0 → S.mediumIssues = 0 → S.lowIssues = 0 →
    S.riskLevel = .CLEAN)

/-- The reference counting function as the specification words it (spec §4.3,
claim C2): every Finding — every severity-carrying entry — across all six
domains increments the counter matching its severity, the four enumerated
structural penalties are added (disabled firewall +1 high; the dependency
domain's buckets verbatim; each SUID/SGID file +1 low; each
environment-variable secret +1 high), and `totalIssues` is the sum of the
four counters.  Stated from the spec's words, for comparison against
`calculateSummary`. -/
def summarizeSpec (network : NetworkScanResult) (processes : ProcessScanResult)
    (filesystem : FilesystemScanResult) (dependencies : DependencyScanResult)
    (configuration : ConfigScanResult) (containers : ContainerScanResult) : Summary :=
  let findingSevs :=
    netSevs network ++ suspSevs processes
      ++ processes.privilegedProcesses.map (·.severity)
      ++ sensSevs filesystem ++ wwSevs filesystem ++ exSevs filesystem
      ++ sshSevs configuration ++ cfgSecSevs configuration ++ containerSevs containers
  let crit := countSev .critical findingSevs + dependencies.summary.critical
  let hi := countSev .high findingSevs + (if network.firewallStatus.enabled then 0 else 1)
      + processes.secretsInEnv.length + dependencies.summary.high
  let med := countSev .medium findingSevs + dependencies.summary.moderate
  let lo := countSev .low findingSevs + filesystem.suidFiles.length
      + dependencies.summary.low
  { totalIssues := crit + hi + med + lo,
    criticalIssues := crit, highIssues := hi, mediumIssues := med, lowIssues := lo,
    riskLevel := if crit > 0 then .CRITICAL else if hi > 0 then .HIGH
      else if med > 0 then .MEDIUM else if lo > 0 then .LOW else .CLEAN }

/-- The counting function `calculateSummary` actually implements, in closed
form: `openPorts`, `suspiciousProcesses`, `sensitiveFileIssues`,
`sshConfigIssues`, `secretsInConfig` and container issues are counted by
severity; `worldWritableFiles` count only when medium; `exposedSecrets`
only when high or medium; `privilegedProcesses` and `listeningServices`
are not counted at all; the four structural penalties are applied
verbatim. -/
def summarizeAmended (network : NetworkScanResult) (processes : ProcessScanResult)
    (filesystem : FilesystemScanResult) (dependencies : DependencyScanResult)
    (configuration : ConfigScanResult) (containers : ContainerScanResult) : Summary :=
  let crit := criticalClosed network processes filesystem dependencies configuration containers
  let hi := highClosed network processes filesystem dependencies configuration containers
  let med := mediumClosed network processes filesystem dependencies configuration containers
  let lo := lowClosed network processes filesystem dependencies configuration containers
  { totalIssues := crit + hi + med + lo,
    criticalIssues := crit, highIssues := hi, mediumIssues := med, lowIssues := lo,
    riskLevel := if crit > 0 then .CRITICAL else if hi > 0 then .HIGH
      else if med > 0 then .MEDIUM else if lo > 0 then .LOW else .CLEAN }

/-! ### Crypto subsystem (`src/crypto/keys.ts`) -/

/-- Byte buffers (`Buffer`) as lists of byte values `< 256`. -/
abbrev Bytes := List Nat

/-- Value of one hexadecimal digit, `none` for a non-hex character. -/
def hexVal? (c : Char) : Option Nat :=
  if '0' ≤ c ∧ c ≤ '9' then some (c.toNat - '0'.toNat)
  else if 'a' ≤ c ∧ c ≤ 'f' then some (c.toNat - 'a'.toNat + 10)
  else if 'A' ≤ c ∧ c ≤ 'F' then some (c.toNat - 'A'.toNat + 10)
  else none

/-- `Buffer.from(s, 'hex')`: consume pairs of hex digits, stopping at the
first pair that is not valid hex. -/
def hexDecodeAux : List Char → Bytes
  | c1 :: c2 :: rest =>
      match hexVal? c1, hexVal? c2 with
      | some h, some l => (h * 16 + l) :: hexDecodeAux rest
      | _, _ => []
  | _ => []

/-- `Buffer.from(s, 'hex')` on a string. -/
def hexDecode (s : String) : Bytes := hexDecodeAux s.toList

/-- The standard base64 alphabet. -/
def b64Alphabet : List Char :=
  "ABCDEFGHIJKLMNOPQRSTUVWXYZabcdefghijklmnopqrstuvwxyz0123456789+/".toList

/-- Character for one six-bit group. -/
def b64Char (n : Nat) : Char := b64Alphabet.getD n 'A'

/-- Six-bit value of one base64 character, `none` for padding and any
character outside the alphabet (Node's decoder skips those). -/
def b64Val? (c : Char) : Option Nat :=
  let i := b64Alphabet.indexOf c
  if i < b64Alphabet.length then some i else none

/-- `buffer.toString('base64')`: encode three bytes into four characters,
padding a final partial group with `=`. -/
def b64encodeChunks : Bytes → List Char
  | [] => []
  | [a] => [b64Char (a / 4), b64Char (a % 4 * 16), '=', '=']
  | [a, b] => [b64Char (a / 4), b64Char (a % 4 * 16 + b / 16), b64Char (b % 16 * 4), '=']
  | a :: b :: c :: rest =>
      b64Char (a / 4) :: b64Char (a % 4 * 16 + b / 16) :: b64Char (b % 16 * 4 + c / 64)
        :: b64Char (c % 64) :: b64encodeChunks rest

/-- `buffer.toString('base64')` as a string. -/
def b64encode (b : Bytes) : String := String.mk (b64encodeChunks b)

/-- Decode a list of six-bit values four at a time; a trailing group of two
or three values yields one or two bytes (the effect of `=` padding). -/
def b64decodeVals : List Nat → Bytes
  | s1 :: s2 :: s3 :: s4 :: rest =>
      (s1 * 4 + s2 / 16) :: (s2 % 16 * 16 + s3 / 4) :: (s3 % 4 * 64 + s4)
        :: b64decodeVals rest
  | [s1, s2, s3] => [s1 * 4 + s2 / 16, s2 % 16 * 16 + s3 / 4]
  | [s1, s2] => [s1 * 4 + s2 / 16]
  | _ => []

/-- `Buffer.from(s, 'base64')`: skip characters outside the alphabet
(including `=` padding) and decode the six-bit groups.  Never throws. -/
def b64decode (s : String) : Bytes := b64decodeVals (s.toList.filterMap b64Val?)

/-- The external Node `crypto` primitives that keys.ts calls, as parameters
of the embedding: `sha256hex` models
`createHash('sha256').update(data).digest('hex')`; `sign` models
`crypto.sign(null, message, privateKey)` returning a signature buffer;
`verify` models `crypto.verify(null, message, publicKey, signature)`,
which may throw on malformed key material (modelled as `Except.error`). -/
structure CryptoPrim where
  sha256hex : String → String
  sign : String → Bytes → Bytes
  verify : String → Bytes → Bytes → Except String Bool

/-- `hashData` (keys.ts 51–53). -/
def hashData (P : CryptoPrim) (data : String) : String := P.sha256hex data

/-- `signData` (keys.ts 55–62): hex-decode the digest, sign it, return the
signature base64-encoded. -/
def signData (P : CryptoPrim) (data : String) (privateKey : String) : String :=
  let hash := hexDecode (hashData P data)
  let signature := P.sign privateKey hash
  b64encode signature

/-- `verifySignature` (keys.ts 64–76): recompute the digest, base64-decode
the signature, call `crypto.verify`; the surrounding `try/catch` turns any
thrown error into `false`. -/
def verifySignature (P : CryptoPrim) (data : String) (signature : String)
    (publicKey : String) : Bool :=
  match (do
      let hash := hexDecode (hashData P data)
      let signatureBuffer := b64decode signature
      P.verify publicKey hash signatureBuffer : Except String Bool) with
  | .ok b => b
  | .error _ => false

/-- `KeyPair` (keys.ts 11–14). -/
structure KeyPair where
  privateKey : String
  publicKey : String
deriving DecidableEq, Repr

/-- The two key files under `~/.vigil/keys` (keys.ts 6–9): `none` means the
file is absent (reading it rejects), `some s` that it holds contents `s`. -/
structure KeyFS where
  privateFile : Option String
  publicFile : Option String
deriving DecidableEq, Repr

/-- `generateKeys` (keys.ts 28–49): `gen` stands for the fresh pair produced
by `generateKeyPairSync('ed25519', ...)`; `fs.mkdir` is a no-op on the
modelled state; `fs.writeFile` (default flag `'w'`) sets each file's
contents unconditionally, replacing whatever was there. -/
def generateKeys (gen : KeyPair) (_fs : KeyFS) : KeyPair × KeyFS :=
  ({ privateKey := gen.privateKey, publicKey := gen.publicKey },
   { privateFile := some gen.privateKey, publicFile := some gen.publicKey })

/-- `ensureKeysExist` (keys.ts 16–26): try to read both key files; if either
read rejects (file absent) the `catch` falls back to `generateKeys`. -/
def ensureKeysExist (gen : KeyPair) (fs : KeyFS) : KeyPair × KeyFS :=
  match fs.privateFile, fs.publicFile with
  | some privateKey, some publicKey => ({ privateKey, publicKey }, fs)
  | _, _ => generateKeys gen fs

/-! ### Orchestrator (`src/scanners/scanner.ts`) -/

/-- The full `ScanReport` (scanner.ts 8–25); the ISO-8601 timestamp string
is modelled as the `Nat` instant it denotes (ISO strings of later instants
are also lexicographically later, so ordering is preserved). -/
structure ScanReport where
  timestamp : Nat
  hostname : String
  network : NetworkScanResult
  processes : ProcessScanResult
  filesystem : FilesystemScanResult
  dependencies : DependencyScanResult
  configuration : ConfigScanResult
  containers : ContainerScanResult
  summary : Summary
deriving DecidableEq, Repr

/-- The environment one `runFullScan` call runs in.  `hostnameAt n` is the
trimmed output of the `hostname` command (already `"unknown"` if the
command failed, per `getHostname`) as it would resolve at step `n`;
`now n` is the clock at step `n`.  Step `scanStartStep` is scan start,
before the scanners are launched; step `collectStep` is the point where
all six scanner promises have resolved.  The six scanner fields hold each
scanner promise's outcome; `Except.error` is a rejected promise. -/
structure ScanEnv where
  hostnameAt : Nat → String
  now : Nat → Nat
  net : Except String NetworkScanResult
  proc : Except String ProcessScanResult
  fs : Except String FilesystemScanResult
  deps : Except String DependencyScanResult
  config : Except String ConfigScanResult
  containers : Except String ContainerScanResult

/-- The step at which `getHostname` resolves (scanner.ts line 28, before the
`Promise.all`). -/
def scanStartStep : Nat := 0

/-- The step at which the `Promise.all` barrier has collected all six
results and `new Date()` is read (scanner.ts lines 31–44). -/
def collectStep : Nat := 1

/-- `runFullScan` (scanner.ts 27–54): await `getHostname()`, then
`Promise.all` over the six scanners — if any scanner's promise rejects the
whole call rejects (the model propagates the first rejection in domain
order; `Promise.all` rejects with whichever settles first, which for a
single failing scanner is the same) — then build the report, reading
`new Date()` at that point. -/
def runFullScan (env : ScanEnv) : Except String ScanReport := do
  let hostname := env.hostnameAt scanStartStep
  let network ← env.net
  let processes ← env.proc
  let filesystem ← env.fs
  let dependencies ← env.deps
  let configuration ← env.config
  let containers ← env.containers
  let summary := calculateSummary network processes filesystem dependencies
    configuration containers
  pure { timestamp := env.now collectStep, hostname, network, processes, filesystem,
         dependencies, configuration, containers, summary }

/-! ### Dependency scanner parsing (`src/scanners/dependencies.ts`) -/

/-- One entry of the parsed `auditData.vulnerabilities` object: `severity`
is `v.severity` (absent → `'info'`), `range` is `v.range` (absent →
`'unknown'`), `title` is `v.via?.[0]?.title` (absent → the fallback
description). -/
structure AuditEntry where
  name : String
  severity : Option DepSeverity
  range : Option String
  title : Option String
deriving DecidableEq, Repr

/-- The `metadata.vulnerabilities` counters of the audit JSON; absent
fields default to `0` (`|| 0`). -/
structure AuditMetadata where
  critical : Option Nat
  high : Option Nat
  moderate : Option Nat
  low : Option Nat
  info : Option Nat
deriving DecidableEq, Repr

/-- The `vulnerabilities.push({...})` body of `scanDependencies`
(dependencies.ts 56–61 and 91–96). -/
def parseVuln (e : AuditEntry) : Vulnerability :=
  { name := e.name,
    severity := e.severity.getD .info,
    version := e.range.getD "unknown",
    description := e.title.getD "No description available" }

/-- `scanDependencies` (dependencies.ts 43–125) after `npm audit --json`
has produced parseable output: both the ok branch (lines 50–78) and the
caught non-zero-exit branch (lines 85–113) build the result the same way —
`vulnerabilities` capped with `slice(0, 20)`, `totalVulnerabilities` the
uncapped length, `summary` from the metadata counters. -/
def scanDependencies (entries : List AuditEntry) (meta : AuditMetadata) :
    DependencyScanResult :=
  let vulnerabilities := entries.map parseVuln
  { hasPackageJson := true,
    vulnerabilities := vulnerabilities.take 20,
    totalVulnerabilities := vulnerabilities.length,
    summary :=
      { critical := meta.critical.getD 0,
        high := meta.high.getD 0,
        moderate := meta.moderate.getD 0,
        low := meta.low.getD 0,
        info := meta.info.getD 0 } }

/-! ### Canonical Serializer (spec §4.4) -/

/-- The six report domains, in the fixed serialization order of spec §4.4. -/
inductive Domain where
  | network
  | processes
  | filesystem
  | dependencies
  | configuration
  | containers
deriving DecidableEq, Repr

/-- The fixed domain emission order of spec §4.4. -/
def domainOrder : List Domain :=
  [.network, .processes, .filesystem, .dependencies, .configuration, .containers]

/-- The mapping key emitted for each domain. -/
def domainName : Domain → String
  | .network => "network"
  | .processes => "processes"
  | .filesystem => "filesystem"
  | .dependencies => "dependencies"
  | .configuration => "configuration"
  | .containers => "containers"

/-- Modelled from the spec: the Canonical Serializer (`canonicalize`,
spec §4.4) belongs to this repository but its source file is not among the
provided ones, so the report representation it consumes is modelled from
the spec's words.  The in-memory `results` mapping, whose insertion order
may differ between two representations of the same logical report, is an
association list from domain to that domain's record, the record itself
taken as an already-serialized string since field order within each record
is fixed by the Data Model declaration order. -/
structure RawReport where
  timestamp : Nat
  hostname : String
  results : List (Domain × String)
deriving DecidableEq, Repr

/-- Mapping lookup on the in-memory association list. -/
def lookupDomain (results : List (Domain × String)) (d : Domain) : String :=
  ((results.find? (fun p => p.1 == d)).map (fun p => p.2)).getD ""

/-- Modelled from the spec: `canonicalize(report) -> bytes` (spec §4.4),
pure and order-stable — mapping keys are emitted in the fixed
`domainOrder`, never in the host map's insertion order. -/
def canonicalize (r : RawReport) : String :=
  "timestamp:" ++ toString r.timestamp ++ ";hostname:" ++ r.hostname
    ++ String.join (domainOrder.map
        (fun d => ";" ++ domainName d ++ ":" ++ lookupDomain r.results d))

/-! ### Concrete inputs used by witnesses and counterexamples -/

/-- A clean network result: no open ports, firewall enabled. -/
def emptyNetwork : NetworkScanResult :=
  { openPorts := [], firewallStatus := { enabled := true, type := "ufw" },
    listeningServices := [] }

/-- A clean process result. -/
def emptyProcesses : ProcessScanResult :=
  { suspiciousProcesses := [], privilegedProcesses := [], secretsInEnv := [] }

/-- A clean filesystem result. -/
def emptyFilesystem : FilesystemScanResult :=
  { sensitiveFileIssues := [], worldWritableFiles := [], suidFiles := [],
    exposedSecrets := [] }

/-- A clean dependency result. -/
def emptyDependencies : DependencyScanResult :=
  { hasPackageJson := false, vulnerabilities := [], totalVulnerabilities := 0,
    summary := { critical := 0, high := 0, moderate := 0, low := 0, info := 0 } }

/-- A clean configuration result. -/
def emptyConfiguration : ConfigScanResult :=
  { sshConfigIssues := [], secretsInConfig := [] }

/-- A clean container result. -/
def emptyContainers : ContainerScanResult := { containers := [] }

/-- A critical finding: an open telnet port. -/
def telnetPort : PortInfo :=
  { port := 23, protocol := "TCP", service := "Telnet (unencrypted)",
    state := "LISTENING", severity := .critical }

/-- A low finding: an open unknown port. -/
def lowPort : PortInfo :=
  { port := 8080, protocol := "TCP", service := "Unknown",
    state := "LISTENING", severity := .low }

/-- A privileged process entry, as `findPrivilegedProcesses` produces them
(process.ts 100–123): severity medium. -/
def rootProcess : ProcessInfo :=
  { pid := "412", command := "/usr/sbin/cron", user := "root",
    issue := "Running with root privileges", severity := .medium }

/-- A process result whose only content is one privileged process. -/
def privOnlyProcesses : ProcessScanResult :=
  { suspiciousProcesses := [], privilegedProcesses := [rootProcess],
    secretsInEnv := [] }

/-- A toy primitive instantiation whose `verify` accepts exactly the
signature equal to the message, used to witness the crypto theorems. -/
def toyPrim : CryptoPrim :=
  { sha256hex := fun _ => "0a2b",
    sign := fun _ hash => hash,
    verify := fun _ hash sig => .ok (hash == sig) }

/-- A primitive instantiation whose `verify` always throws (malformed key
material), used to witness that the `catch` yields `false`. -/
def badPrim : CryptoPrim :=
  { sha256hex := fun _ => "0a2b",
    sign := fun _ hash => hash,
    verify := fun _ _ _ => .error "unsupported key type" }

/-- Key-file state with the private key present but the public key lost:
reading the public key rejects, so `ensureKeysExist` falls into its
`catch`. -/
def lostPublicFS : KeyFS :=
  { privateFile := some "ORIGINAL-PRIVATE-KEY", publicFile := none }

/-- A fresh pair as `generateKeyPairSync` would mint it. -/
def freshPair : KeyPair :=
  { privateKey := "FRESH-PRIVATE-KEY", publicKey := "FRESH-PUBLIC-KEY" }

/-- An environment where every scanner resolves with a clean result. -/
def okEnv : ScanEnv :=
  { hostnameAt := fun _ => "host", now := fun n => n,
    net := .ok emptyNetwork, proc := .ok emptyProcesses,
    fs := .ok emptyFilesystem, deps := .ok emptyDependencies,
    config := .ok emptyConfiguration, containers := .ok emptyContainers }

/-- `okEnv` with the network scanner's promise rejecting. -/
def failingNetEnv : ScanEnv := { okEnv with net := .error "scanner crashed" }

/-- `okEnv` with a hostname that changes between scan start and the
collection point. -/
def driftEnv : ScanEnv :=
  { okEnv with hostnameAt := fun n => if n = 0 then "host-at-start" else "host-at-collect" }

/-- `okEnv` rerun later: its clock runs 100 instants ahead. -/
def laterEnv : ScanEnv := { okEnv with now := fun n => n + 100 }

/-- One parsed `npm audit` entry. -/
def sampleAuditEntry : AuditEntry :=
  { name := "lodash", severity := some .high, range := some "<4.17.21",
    title := some "Prototype Pollution" }

/-- Audit metadata matching 21 high vulnerabilities. -/
def sampleAuditMeta : AuditMetadata :=
  { critical := some 0, high := some 21, moderate := none, low := none, info := none }

/-- An in-memory report whose mapping is in domain order. -/
def rawReportA : RawReport :=
  { timestamp := 1700000000, hostname := "host",
    results := [(.network, "N"), (.processes, "P"), (.filesystem, "F"),
                (.dependencies, "D"), (.configuration, "C"), (.containers, "K")] }

/-- The same logical report with its mapping held in reversed insertion
order. -/
def rawReportB : RawReport :=
  { timestamp := 1700000000, hostname := "host",
    results := [(.containers, "K"), (.configuration, "C"), (.dependencies, "D"),
                (.filesystem, "F"), (.processes, "P"), (.network, "N")] }

theorem countSev_nil (s : Severity) : countSev s [] = 0 := rfl

theorem countSev_cons (s x : Severity) (l : List Severity) :
    countSev s (x :: l) = countSev s l + (if x = s then 1 else 0) := by
  simp [countSev, List.countP_cons]

/-- A `forEach` that bumps the counter matching each element's severity adds
the per-severity tallies of the projected severities to every field. -/
theorem foldl_bump {α : Type} (sev : α → Severity) (l : List α) (c : Counts) :
    l.foldl (fun c x => bump c (sev x)) c =
      ⟨c.critical + countSev .critical (l.map sev),
       c.high + countSev .high (l.map sev),
       c.medium + countSev .medium (l.map sev),
       c.low + countSev .low (l.map sev)⟩ := by
  induction l generalizing c with
  | nil => simp [countSev]
  | cons x t ih =>
      rw [List.foldl_cons, ih]
      cases h : sev x <;>
        simp [bump, List.map_cons, countSev_cons, h] <;> omega

/-- A `forEach` that unconditionally increments the high counter adds the
list length to it. -/
theorem foldl_highInc {α : Type} (l : List α) (c : Counts) :
    l.foldl (fun c _ => { c with high := c.high + 1 }) c =
      { c with high := c.high + l.length } := by
  induction l generalizing c with
  | nil => simp
  | cons x t ih => rw [List.foldl_cons, ih]; simp; omega

/-- A `forEach` that unconditionally increments the low counter adds the
list length to it. -/
theorem foldl_lowInc {α : Type} (l : List α) (c : Counts) :
    l.foldl (fun c _ => { c with low := c.low + 1 }) c =
      { c with low := c.low + l.length } := by
  induction l generalizing c with
  | nil => simp
  | cons x t ih => rw [List.foldl_cons, ih]; simp; omega

/-- The `worldWritableFiles` loop counts only elements of medium severity. -/
theorem foldl_mediumOnly {α : Type} (sev : α → Severity) (l : List α) (c : Counts) :
    l.foldl (fun c x => if sev x = .medium then { c with medium := c.medium + 1 } else c) c =
      { c with medium := c.medium + countSev .medium (l.map sev) } := by
  induction l generalizing c with
  | nil => simp [countSev]
  | cons x t ih =>
      rw [List.foldl_cons]
      by_cases h : sev x = .medium <;>
        simp [h, ih, List.map_cons, countSev_cons] <;> omega

/-- The `exposedSecrets` loop counts high and medium elements and ignores the
rest. -/
theorem foldl_highMedium {α : Type} (sev : α → Severity) (l : List α) (c : Counts) :
    l.foldl (fun c x =>
        if sev x = .high then { c with high := c.high + 1 }
        else if sev x = .medium then { c with medium := c.medium + 1 } else c) c =
      { c with high := c.high + countSev .high (l.map sev),
               medium := c.medium + countSev .medium (l.map sev) } := by
  induction l generalizing c with
  | nil => simp [countSev]
  | cons x t ih =>
      rw [List.foldl_cons]
      cases h : sev x <;>
        simp [h, ih, List.map_cons, countSev_cons] <;> omega

/-- The nested container loop is a bump-fold over the flattened issue
severities. -/
theorem foldl_containers (L : List ContainerInfo) (c : Counts) :
    L.foldl (fun c container =>
        container.issues.foldl (fun c issue => bump c issue.severity) c) c =
      ⟨c.critical + countSev .critical ((L.map (fun k => k.issues.map (·.severity))).flatten),
       c.high + countSev .high ((L.map (fun k => k.issues.map (·.severity))).flatten),
       c.medium + countSev .medium ((L.map (fun k => k.issues.map (·.severity))).flatten),
       c.low + countSev .low ((L.map (fun k => k.issues.map (·.severity))).flatten)⟩ := by
  induction L generalizing c with
  | nil => simp [countSev]
  | cons k t ih =>
      rw [List.foldl_cons,
        foldl_bump (fun issue : ContainerIssue => issue.severity) k.issues c, ih]
      simp [countSev, List.countP_append]
      omega

/-- The `criticalIssues` counter of `calculateSummary` in closed form. -/
theorem calculateSummary_criticalIssues (network : NetworkScanResult)
    (processes : ProcessScanResult) (filesystem : FilesystemScanResult)
    (dependencies : DependencyScanResult) (configuration : ConfigScanResult)
    (containers : ContainerScanResult) :
    (calculateSummary network processes filesystem dependencies configuration
        containers).criticalIssues =
      criticalClosed network processes filesystem dependencies configuration containers := by
  simp only [calculateSummary]
  rw [foldl_bump (fun port : PortInfo => port.severity),
    foldl_bump (fun proc : ProcessInfo => proc.severity),
    foldl_bump (fun file : FileIssue => file.severity),
    foldl_highInc, foldl_lowInc,
    foldl_mediumOnly (fun file : FileIssue => file.severity),
    foldl_highMedium (fun file : FileIssue => file.severity),
    foldl_bump (fun issue : ConfigIssue => issue.severity),
    foldl_bump (fun issue : ConfigIssue => issue.severity),
    foldl_containers]
  by_cases hfw : network.firewallStatus.enabled <;>
    simp [hfw, criticalClosed, netSevs, suspSevs, sensSevs, sshSevs, cfgSecSevs,
      containerSevs]

/-- The `highIssues` counter of `calculateSummary` in closed form. -/
theorem calculateSummary_highIssues (network : NetworkScanResult)
    (processes : ProcessScanResult) (filesystem : FilesystemScanResult)
    (dependencies : DependencyScanResult) (configuration : ConfigScanResult)
    (containers : ContainerScanResult) :
    (calculateSummary network processes filesystem dependencies configuration
        containers).highIssues =
      highClosed network processes filesystem dependencies configuration containers := by
  simp only [calculateSummary]
  rw [foldl_bump (fun port : PortInfo => port.severity),
    foldl_bump (fun proc : ProcessInfo => proc.severity),
    foldl_bump (fun file : FileIssue => file.severity),
    foldl_highInc, foldl_lowInc,
    foldl_mediumOnly (fun file : FileIssue => file.severity),
    foldl_highMedium (fun file : FileIssue => file.severity),
    foldl_bump (fun issue : ConfigIssue => issue.severity),
    foldl_bump (fun issue : ConfigIssue => issue.severity),
    foldl_containers]
  by_cases hfw : network.firewallStatus.enabled <;>
    simp [hfw, highClosed, netSevs, suspSevs, sensSevs, exSevs, sshSevs, cfgSecSevs,
      containerSevs]

/-- The `mediumIssues` counter of `calculateSummary` in closed form. -/
theorem calculateSummary_mediumIssues (network : NetworkScanResult)
    (processes : ProcessScanResult) (filesystem : FilesystemScanResult)
    (dependencies : DependencyScanResult) (configuration : ConfigScanResult)
    (containers : ContainerScanResult) :
    (calculateSummary network processes filesystem dependencies configuration
        containers).mediumIssues =
      mediumClosed network processes filesystem dependencies configuration containers := by
  simp only [calculateSummary]
  rw [foldl_bump (fun port : PortInfo => port.severity),
    foldl_bump (fun proc : ProcessInfo => proc.severity),
    foldl_bump (fun file : FileIssue => file.severity),
    foldl_highInc, foldl_lowInc,
    foldl_mediumOnly (fun file : FileIssue => file.severity),
    foldl_highMedium (fun file : FileIssue => file.severity),
    foldl_bump (fun issue : ConfigIssue => issue.severity),
    foldl_bump (fun issue : ConfigIssue => issue.severity),
    foldl_containers]
  by_cases hfw : network.firewallStatus.enabled <;>
    simp [hfw, mediumClosed, netSevs, suspSevs, sensSevs, wwSevs, exSevs, sshSevs,
      cfgSecSevs, containerSevs]

/-- The `lowIssues` counter of `calculateSummary` in closed form. -/
theorem calculateSummary_lowIssues (network : NetworkScanResult)
    (processes : ProcessScanResult) (filesystem : FilesystemScanResult)
    (dependencies : DependencyScanResult) (configuration : ConfigScanResult)
    (containers : ContainerScanResult) :
    (calculateSummary network processes filesystem dependencies configuration
        containers).lowIssues =
      lowClosed network processes filesystem dependencies configuration containers := by
  simp only [calculateSummary]
  rw [foldl_bump (fun port : PortInfo => port.severity),
    foldl_bump (fun proc : ProcessInfo => proc.severity),
    foldl_bump (fun file : FileIssue => file.severity),
    foldl_highInc, foldl_lowInc,
    foldl_mediumOnly (fun file : FileIssue => file.severity),
    foldl_highMedium (fun file : FileIssue => file.severity),
    foldl_bump (fun issue : ConfigIssue => issue.severity),
    foldl_bump (fun issue : ConfigIssue => issue.severity),
    foldl_containers]
  by_cases hfw : network.firewallStatus.enabled <;>
    simp [hfw, lowClosed, netSevs, suspSevs, sensSevs, sshSevs, cfgSecSevs,
      containerSevs]

/-- `totalIssues` is, definitionally, the sum of the four counters. -/
theorem calculateSummary_totalIssues (network : NetworkScanResult)
    (processes : ProcessScanResult) (filesystem : FilesystemScanResult)
    (dependencies : DependencyScanResult) (configuration : ConfigScanResult)
    (containers : ContainerScanResult) :
    (calculateSummary network processes filesystem dependencies configuration
        containers).totalIssues =
      (calculateSummary network processes filesystem dependencies configuration
        containers).criticalIssues +
      (calculateSummary network processes filesystem dependencies configuration
        containers).highIssues +
      (calculateSummary network processes filesystem dependencies configuration
        containers).mediumIssues +
      (calculateSummary network processes filesystem dependencies configuration
        containers).lowIssues := rfl

/-- `riskLevel` is, definitionally, the priority ladder over the four
counters. -/
theorem calculateSummary_riskLevel (network : NetworkScanResult)
    (processes : ProcessScanResult) (filesystem : FilesystemScanResult)
    (dependencies : DependencyScanResult) (configuration : ConfigScanResult)
    (containers : ContainerScanResult) :
    (calculateSummary network processes filesystem dependencies configuration
        containers).riskLevel =
      (if (calculateSummary network processes filesystem dependencies configuration
            containers).criticalIssues > 0 then RiskLevel.CRITICAL
       else if (calculateSummary network processes filesystem dependencies configuration
            containers).highIssues > 0 then RiskLevel.HIGH
       else if (calculateSummary network processes filesystem dependencies configuration
            containers).mediumIssues > 0 then RiskLevel.MEDIUM
       else if (calculateSummary network processes filesystem dependencies configuration
            containers).lowIssues > 0 then RiskLevel.LOW
       else RiskLevel.CLEAN) := rfl

/-- Any summary whose `riskLevel` equals the first-match-wins chain over its
own counters satisfies the ladder predicate. -/
theorem ladderHolds_of (S : Summary)
    (h : S.riskLevel =
      if S.criticalIssues > 0 then RiskLevel.CRITICAL
      else if S.highIssues > 0 then RiskLevel.HIGH
      else if S.mediumIssues > 0 then RiskLevel.MEDIUM
      else if S.lowIssues > 0 then RiskLevel.LOW
      else RiskLevel.CLEAN) : ladderHolds S := by
  unfold ladderHolds
  refine ⟨?_, ?_, ?_, ?_, ?_⟩ <;> intros <;> simp_all

/-- C1: the Risk Aggregator's `riskLevel` follows the strict priority
ladder — `criticalIssues>0 → CRITICAL`, else `highIssues>0 → HIGH`, else
`mediumIssues>0 → MEDIUM`, else `lowIssues>0 → LOW`, else `CLEAN` — and
prepending one critical finding to any result set (however many
lower-severity findings it holds) always yields `CRITICAL`. -/
theorem c1_riskLevel_priority_ladder (network : NetworkScanResult)
    (processes : ProcessScanResult) (filesystem : FilesystemScanResult)
    (dependencies : DependencyScanResult) (configuration : ConfigScanResult)
    (containers : ContainerScanResult) (port : PortInfo)
    (hport : port.severity = Severity.critical) :
    ladderHolds (calculateSummary network processes filesystem dependencies
      configuration containers) ∧
    (calculateSummary { network with openPorts := port :: network.openPorts }
        processes filesystem dependencies configuration containers).riskLevel =
      RiskLevel.CRITICAL := by
  constructor
  · exact ladderHolds_of _
      (calculateSummary_riskLevel network processes filesystem dependencies
        configuration containers)
  · have hsev : countSev .critical
        (netSevs { network with openPorts := port :: network.openPorts }) =
        countSev .critical (netSevs network) + 1 := by
      simp [netSevs, countSev_cons, hport]
    have hc : (calculateSummary { network with openPorts := port :: network.openPorts }
        processes filesystem dependencies configuration containers).criticalIssues > 0 := by
      rw [calculateSummary_criticalIssues]
      unfold criticalClosed
      omega
    rw [calculateSummary_riskLevel]
    simp [hc]

/-- Witness for C1: an otherwise clean result set holding one low finding,
plus one critical telnet port, aggregates to `CRITICAL`. -/
theorem c1_riskLevel_priority_ladder_witness :
    ladderHolds (calculateSummary { emptyNetwork with openPorts := [lowPort] }
      emptyProcesses emptyFilesystem emptyDependencies emptyConfiguration
      emptyContainers) ∧
    (calculateSummary { { emptyNetwork with openPorts := [lowPort] } with
        openPorts := telnetPort :: ({ emptyNetwork with openPorts := [lowPort] } :
          NetworkScanResult).openPorts }
        emptyProcesses emptyFilesystem emptyDependencies emptyConfiguration
        emptyContainers).riskLevel = RiskLevel.CRITICAL :=
  c1_riskLevel_priority_ladder { emptyNetwork with openPorts := [lowPort] }
    emptyProcesses emptyFilesystem emptyDependencies emptyConfiguration
    emptyContainers telnetPort (by decide)

/-- C2 counterexample: one privileged process is a medium-severity Finding
of the process domain, yet `calculateSummary` never counts the
`privilegedProcesses` list, while the specification's reference counting
function counts every Finding — the two disagree on this result set. -/
theorem c2_reference_count_counterexample :
    calculateSummary emptyNetwork privOnlyProcesses emptyFilesystem
        emptyDependencies emptyConfiguration emptyContainers ≠
      summarizeSpec emptyNetwork privOnlyProcesses emptyFilesystem
        emptyDependencies emptyConfiguration emptyContainers := by decide

/-- C2 (amended): the Summary equals the amended reference counting
function — `openPorts`, `suspiciousProcesses`, `sensitiveFileIssues`,
`sshConfigIssues`, `secretsInConfig` and container issues counted by
severity; `worldWritableFiles` counted only when medium; `exposedSecrets`
only when high or medium; `privilegedProcesses` and `listeningServices`
never counted; the four structural penalties applied exactly — and
`totalIssues` is the sum of the four severity counters. -/
theorem c2_summary_equals_amended_reference (network : NetworkScanResult)
    (processes : ProcessScanResult) (filesystem : FilesystemScanResult)
    (dependencies : DependencyScanResult) (configuration : ConfigScanResult)
    (containers : ContainerScanResult) :
    calculateSummary network processes filesystem dependencies configuration
        containers =
      summarizeAmended network processes filesystem dependencies configuration
        containers ∧
    (calculateSummary network processes filesystem dependencies configuration
        containers).totalIssues =
      (calculateSummary network processes filesystem dependencies configuration
          containers).criticalIssues +
        (calculateSummary network processes filesystem dependencies configuration
          containers).highIssues +
        (calculateSummary network processes filesystem dependencies configuration
          containers).mediumIssues +
        (calculateSummary network processes filesystem dependencies configuration
          containers).lowIssues := by
  have hc := calculateSummary_criticalIssues network processes filesystem dependencies
    configuration containers
  have hh := calculateSummary_highIssues network processes filesystem dependencies
    configuration containers
  have hm := calculateSummary_mediumIssues network processes filesystem dependencies
    configuration containers
  have hl := calculateSummary_lowIssues network processes filesystem dependencies
    configuration containers
  have ht := calculateSummary_totalIssues network processes filesystem dependencies
    configuration containers
  have hr := calculateSummary_riskLevel network processes filesystem dependencies
    configuration containers
  refine ⟨?_, ht⟩
  ext
  · simp only [summarizeAmended, ht, hc, hh, hm, hl]
  · simp only [summarizeAmended, hc]
  · simp only [summarizeAmended, hh]
  · simp only [summarizeAmended, hm]
  · simp only [summarizeAmended, hl]
  · simp only [summarizeAmended, hr, hc, hh, hm, hl]

/-- Decoding a base64 character produced from a six-bit value recovers the
value. -/
theorem b64Val_b64Char : ∀ n : Nat, n < 64 → b64Val? (b64Char n) = some n := by decide

/-- Padding characters are skipped by the decoder. -/
theorem b64Val_pad : b64Val? '=' = none := by decide

/-- Base64 decoding inverts base64 encoding on byte lists. -/
theorem b64decodeVals_encodeChunks : ∀ (l : Bytes), (∀ x ∈ l, x < 256) →
    b64decodeVals ((b64encodeChunks l).filterMap b64Val?) = l := by
  intro l
  induction l using b64encodeChunks.induct with
  | case1 =>
      intro _
      rfl
  | case2 a =>
      intro h
      have ha : a < 256 := h a (by simp)
      have h1 : a / 4 < 64 := by omega
      have h2 : a % 4 * 16 < 64 := by omega
      simp only [b64encodeChunks, List.filterMap_cons, b64Val_b64Char _ h1,
        b64Val_b64Char _ h2, b64Val_pad, List.filterMap_nil]
      simp only [b64decodeVals, List.cons.injEq, and_true]
      omega
  | case3 a b =>
      intro h
      have ha : a < 256 := h a (by simp)
      have hb : b < 256 := h b (by simp)
      have h1 : a / 4 < 64 := by omega
      have h2 : a % 4 * 16 + b / 16 < 64 := by omega
      have h3 : b % 16 * 4 < 64 := by omega
      simp only [b64encodeChunks, List.filterMap_cons, b64Val_b64Char _ h1,
        b64Val_b64Char _ h2, b64Val_b64Char _ h3, b64Val_pad, List.filterMap_nil]
      simp only [b64decodeVals, List.cons.injEq, and_true]
      constructor <;> omega
  | case4 a b c rest ih =>
      intro h
      have ha : a < 256 := h a (by simp)
      have hb : b < 256 := h b (by simp)
      have hc : c < 256 := h c (by simp)
      have h1 : a / 4 < 64 := by omega
      have h2 : a % 4 * 16 + b / 16 < 64 := by omega
      have h3 : b % 16 * 4 + c / 64 < 64 := by omega
      have h4 : c % 64 < 64 := by omega
      have hrest : ∀ x ∈ rest, x < 256 := fun x hx => h x (by simp [hx])
      simp only [b64encodeChunks, List.filterMap_cons, b64Val_b64Char _ h1,
        b64Val_b64Char _ h2, b64Val_b64Char _ h3, b64Val_b64Char _ h4]
      simp only [b64decodeVals, ih hrest, List.cons.injEq, and_true]
      refine ⟨?_, ?_, ?_⟩ <;> omega

/-- `Buffer.from(sig.toString('base64'), 'base64')` recovers the signature
buffer. -/
theorem b64decode_b64encode (l : Bytes) (h : ∀ x ∈ l, x < 256) :
    b64decode (b64encode l) = l := by
  unfold b64decode b64encode
  exact b64decodeVals_encodeChunks l h

/-- C4: sign/verify round-trip — for data signed with `signData` under a
private key whose matching public key makes the underlying crypto
primitive accept (the defining property of a matching Ed25519 pair, here
assumed at the signed digest), and whose signature is a byte buffer,
`verifySignature` returns `true`. -/
theorem c4_sign_verify_roundtrip (P : CryptoPrim) (data priv pub : String)
    (hsig : ∀ x ∈ P.sign priv (hexDecode (P.sha256hex data)), x < 256)
    (hver : P.verify pub (hexDecode (P.sha256hex data))
        (P.sign priv (hexDecode (P.sha256hex data))) = Except.ok true) :
    verifySignature P data (signData P data priv) pub = true := by
  unfold verifySignature signData hashData
  rw [b64decode_b64encode _ hsig, hver]

/-- Witness for C4: a concrete primitive accepting exactly the signature
equal to the digest round-trips on concrete report data. -/
theorem c4_sign_verify_roundtrip_witness :
    verifySignature toyPrim "report-data" (signData toyPrim "report-data" "priv.pem")
      "pub.pem" = true :=
  c4_sign_verify_roundtrip toyPrim "report-data" "priv.pem" "pub.pem"
    (by decide) (by rfl)

/-- C6: `verifySignature` is total — it returns a boolean for every input
triple, and it returns `true` exactly when the underlying `crypto.verify`
call succeeds with `true`; every other path (a thrown error on malformed
key or signature material, or a verification mismatch) resolves to
`false` through the `catch`. -/
theorem c6_verify_never_throws (P : CryptoPrim) (data signature publicKey : String) :
    verifySignature P data signature publicKey = true ↔
      P.verify publicKey (hexDecode (hashData P data)) (b64decode signature) =
        Except.ok true := by
  unfold verifySignature
  cases h : P.verify publicKey (hexDecode (hashData P data)) (b64decode signature) with
  | error e => simp [h]
  | ok b => simp [h]

/-- Witness for C6: a primitive that always throws (malformed key
material) makes `verifySignature` return `false`, not raise. -/
theorem c6_verify_never_throws_witness :
    verifySignature badPrim "data" "not-base64!!" "mangled.pem" = false := by
  have h := c6_verify_never_throws badPrim "data" "not-base64!!" "mangled.pem"
  simp [badPrim] at h
  simpa using h

/-- C5: the code violates the no-overwrite invariant.  With the private key
file present but the public key file absent, the `catch` of
`ensureKeysExist` calls `generateKeys`, whose unconditional `fs.writeFile`
replaces the existing private key file with fresh material instead of
failing or re-reading it. -/
theorem c5_private_key_overwritten :
    lostPublicFS.privateFile = some "ORIGINAL-PRIVATE-KEY" ∧
    (ensureKeysExist freshPair lostPublicFS).2.privateFile =
      some "FRESH-PRIVATE-KEY" ∧
    (ensureKeysExist freshPair lostPublicFS).2.privateFile ≠
      lostPublicFS.privateFile := by decide

/-- C8: calling `ensureKeysExist` twice in sequence with no external
interference returns the identical key pair both times and leaves the key
files unchanged after the first call, whatever the initial file state and
whatever fresh material a second generation would mint. -/
theorem c8_ensureKeysExist_idempotent (gen1 gen2 : KeyPair) (fs0 : KeyFS) :
    (ensureKeysExist gen2 (ensureKeysExist gen1 fs0).2).1 =
      (ensureKeysExist gen1 fs0).1 ∧
    (ensureKeysExist gen2 (ensureKeysExist gen1 fs0).2).2 =
      (ensureKeysExist gen1 fs0).2 := by
  obtain ⟨priv, pub⟩ := fs0
  cases priv <;> cases pub <;> simp [ensureKeysExist, generateKeys]

/-- C3 counterexample: when a single scanner's promise rejects, `runFullScan`
rejects as a whole — no per-scanner timeout exists, and no empty
`degraded: true` result is substituted (no `degraded` field exists in any
result type); the other domains' clean results are discarded with the
scan. -/
theorem c3_failure_isolation_counterexample :
    runFullScan failingNetEnv = Except.error "scanner crashed" := rfl

/-- C3 (amended): `runFullScan` succeeds exactly when all six scanner
promises resolve; any single rejection propagates as failure of the whole
scan (`Promise.all`).  Failure tolerance lives inside each scanner, which
catches its own errors and resolves with empty findings. -/
theorem c3_runFullScan_all_or_nothing (env : ScanEnv) :
    (∃ r, runFullScan env = Except.ok r) ↔
      ((∃ x, env.net = Except.ok x) ∧ (∃ x, env.proc = Except.ok x) ∧
       (∃ x, env.fs = Except.ok x) ∧ (∃ x, env.deps = Except.ok x) ∧
       (∃ x, env.config = Except.ok x) ∧ (∃ x, env.containers = Except.ok x)) := by
  obtain ⟨hn, nw, net, proc, fsr, deps, cfg, cont⟩ := env
  cases net <;> cases proc <;> cases fsr <;> cases deps <;> cases cfg <;> cases cont <;>
    simp [runFullScan, Except.bind, bind, pure, Except.pure]

/-- Witness for C3 (amended): with all six scanners resolving, the scan
produces a report. -/
theorem c3_runFullScan_all_or_nothing_witness :
    ∃ r, runFullScan okEnv = Except.ok r :=
  (c3_runFullScan_all_or_nothing okEnv).mpr
    ⟨⟨emptyNetwork, rfl⟩, ⟨emptyProcesses, rfl⟩, ⟨emptyFilesystem, rfl⟩,
     ⟨emptyDependencies, rfl⟩, ⟨emptyConfiguration, rfl⟩, ⟨emptyContainers, rfl⟩⟩

/-- A successful `runFullScan` stamps `timestamp` with the clock at the
collection point and `hostname` with the hostname resolved at scan
start. -/
theorem runFullScan_stamp_fields (env : ScanEnv) (r : ScanReport)
    (h : runFullScan env = Except.ok r) :
    r.timestamp = env.now collectStep ∧ r.hostname = env.hostnameAt scanStartStep := by
  obtain ⟨hn, nw, net, proc, fsr, deps, cfg, cont⟩ := env
  cases net <;> cases proc <;> cases fsr <;> cases deps <;> cases cfg <;> cases cont <;>
    simp [runFullScan, Except.bind, bind, pure, Except.pure] at h <;>
    simp [← h]

/-- C9 counterexample: the hostname is resolved at scan start, before the
scanners run; when the host is renamed during the scan, the report carries
the start-time hostname, not the hostname at the point the results were
collected — while the timestamp does come from the collection point. -/
theorem c9_hostname_stamped_at_start :
    ∃ r, runFullScan driftEnv = Except.ok r ∧
      r.hostname = "host-at-start" ∧
      r.hostname ≠ driftEnv.hostnameAt collectStep ∧
      r.timestamp = driftEnv.now collectStep := by
  refine ⟨_, rfl, rfl, ?_, rfl⟩
  decide

/-- C9 (amended): `runFullScan` stamps `timestamp` at the point all six
domain results have been collected, but resolves `hostname` at scan start;
two sequential scans whose collection points see an advancing clock are
still ordered by report timestamp. -/
theorem c9_timestamp_at_collection (env1 env2 : ScanEnv) (r1 r2 : ScanReport)
    (h1 : runFullScan env1 = Except.ok r1) (h2 : runFullScan env2 = Except.ok r2) :
    r1.timestamp = env1.now collectStep ∧
    r1.hostname = env1.hostnameAt scanStartStep ∧
    (env1.now collectStep < env2.now collectStep → r1.timestamp < r2.timestamp) := by
  obtain ⟨ht1, hh1⟩ := runFullScan_stamp_fields env1 r1 h1
  obtain ⟨ht2, hh2⟩ := runFullScan_stamp_fields env2 r2 h2
  exact ⟨ht1, hh1, fun hlt => by rw [ht1, ht2]; exact hlt⟩

/-- Witness for C9 (amended), on two concrete sequential scans whose second
clock runs later. -/
theorem c9_timestamp_at_collection_witness :
    ∃ r1 r2, runFullScan okEnv = Except.ok r1 ∧
      runFullScan laterEnv = Except.ok r2 ∧
      (r1.timestamp = okEnv.now collectStep ∧
       r1.hostname = okEnv.hostnameAt scanStartStep ∧
       (okEnv.now collectStep < laterEnv.now collectStep →
         r1.timestamp < r2.timestamp)) :=
  ⟨_, _, rfl, rfl, c9_timestamp_at_collection okEnv laterEnv _ _ rfl rfl⟩

/-- C10: the dependency scan caps the reported `vulnerabilities` list at 20
entries (`slice(0, 20)`) while `totalVulnerabilities` is the full parsed
count, so the total can exceed the list's length. -/
theorem c10_vulnerability_cap (entries : List AuditEntry) (meta : AuditMetadata) :
    (scanDependencies entries meta).vulnerabilities.length ≤ 20 ∧
    (scanDependencies entries meta).totalVulnerabilities = entries.length ∧
    (entries.length > 20 →
      (scanDependencies entries meta).totalVulnerabilities >
        (scanDependencies entries meta).vulnerabilities.length) := by
  refine ⟨?_, ?_, fun hgt => ?_⟩ <;>
    simp [scanDependencies] <;> omega

/-- Witness for C10 on 21 identical audit entries: the list is capped at 20
while the total is 21. -/
theorem c10_vulnerability_cap_witness :
    (scanDependencies (List.replicate 21 sampleAuditEntry) sampleAuditMeta).vulnerabilities.length ≤ 20 ∧
    (scanDependencies (List.replicate 21 sampleAuditEntry) sampleAuditMeta).totalVulnerabilities =
      (List.replicate 21 sampleAuditEntry).length ∧
    (scanDependencies (List.replicate 21 sampleAuditEntry) sampleAuditMeta).totalVulnerabilities >
      (scanDependencies (List.replicate 21 sampleAuditEntry) sampleAuditMeta).vulnerabilities.length := by
  have h := c10_vulnerability_cap (List.replicate 21 sampleAuditEntry) sampleAuditMeta
  exact ⟨h.1, h.2.1, h.2.2 (by simp)⟩

/-- C7: canonical serialization is deterministic and order-stable — two
in-memory representations of the same logical report (same timestamp,
hostname and domain-to-record mapping, the mapping held in any insertion
order) canonicalize to byte-identical output, the domain keys being
emitted in the fixed order network, processes, filesystem, dependencies,
configuration, containers. -/
theorem c7_canonicalize_order_stable (r1 r2 : RawReport)
    (ht : r1.timestamp = r2.timestamp) (hh : r1.hostname = r2.hostname)
    (hres : ∀ d : Domain, lookupDomain r1.results d = lookupDomain r2.results d) :
    canonicalize r1 = canonicalize r2 := by
  unfold canonicalize
  rw [ht, hh]
  simp [domainOrder, hres]

/-- Witness for C7: the same logical report held in domain order and in
reversed insertion order canonicalizes identically. -/
theorem c7_canonicalize_order_stable_witness :
    canonicalize rawReportA = canonicalize rawReportB :=
  c7_canonicalize_order_stable rawReportA rawReportB rfl rfl
    (by intro d; cases d <;> rfl)

end Vigil
